import Mathlib

/-!
A shallow embedding of the pa-estuary task-dispatch / worker-pool subsystem
(src/config.py, src/s3.py, src/task.py, src/worker.py, src/main.py), together
with theorems settling the frozen claims about it.

External side effects (S3 calls, local file-system calls) are modelled as an
explicit `Effect` language; an `Env` decides which external operation raises
when attempted, and executions return the list of operations actually issued
together with an outcome.
-/

/-- config.py, class S3Config: the bucket containing all Estuary files. -/
def S3Config.bucket : String := "aws-dwred-01.altegrahealth.com"

/-- config.py, class S3Config: the root folder containing all Estuary files. -/
def S3Config.root : String := "pag_estuary"

/-- config.py, class AppConfig: local file system root folder. -/
def AppConfig.root : String := "C:/Altegra/Code/pa-estuary"

/-- config.py, class AppConfig: number of parallel worker processes. -/
def AppConfig.worker_count : Nat := 1

/-- config.py, class AppConfig: poll interval in seconds. -/
def AppConfig.sleep_time : Nat := 15

/-- A value stored in a TaskMessage args dictionary (task.py passes strings
such as file_path, and numbers such as wait_time). -/
inductive ArgValue where
  | str (s : String)
  | nat (n : Nat)
  deriving DecidableEq, Repr

/-- task.py, class TaskMessage: `{id, type, args}`.  `id` models the value
drawn from the class-level counter TaskMessage.next_id. -/
structure TaskMessage where
  id : Nat
  type : String
  args : List (String × ArgValue)
  deriving DecidableEq, Repr

/-- task.py / worker.py status values: 'in_progress', 'success' or 'failure'. -/
inductive StatusValue where
  | in_progress
  | success
  | failure
  deriving DecidableEq, Repr

/-- task.py, class StatusMessage: `{value, task_message}`. -/
structure StatusMessage where
  value : StatusValue
  task_message : TaskMessage
  deriving DecidableEq, Repr

/-- One external operation issued by a task: the S3 client calls made by
s3.py (copy_object / delete_object / download_file / upload_file) and the
local file-system calls made by task.py (os.makedirs, shutil.copyfile,
os.remove, os.rmdir). -/
inductive Effect where
  | copyObject (bucket source destination : String)
  | deleteObject (bucket key : String)
  | downloadObject (bucket remote localDest : String)
  | uploadObject (localSrc bucket remote : String)
  | makedirs (path : String)
  | copyLocal (source destination : String)
  | removeFile (path : String)
  | removeDir (path : String)
  deriving DecidableEq, Repr

/-- The external world: decides which attempted operation raises an
exception.  A task's trace depends on it; the program text does not. -/
structure Env where
  fails : Effect → Bool

/-- An environment in which every external operation succeeds. -/
def envAllOk : Env := ⟨fun _ => false⟩

/-- Runs a straight-line sequence of external operations: each operation in
turn is issued; if the environment makes it raise, execution stops there
(the raising call is still in the trace) and the Bool result is false. -/
def runSeq (env : Env) : List Effect → List Effect × Bool
  | [] => ([], true)
  | e :: rest =>
    if env.fails e then ([e], false)
    else
      let out := runSeq env rest
      (e :: out.1, out.2)

/-- s3.py, S3Helper.copy_file: one `copy_object` request against the given
bucket. -/
def S3Helper.copy_file (bucket source destination : String) : Effect :=
  Effect.copyObject bucket source destination

/-- s3.py, S3Helper.delete_file: one `delete_object` request against the
given bucket. -/
def S3Helper.delete_file (bucket key : String) : Effect :=
  Effect.deleteObject bucket key

/-- s3.py, S3Helper.download_file: the request actually issued.  The body
calls `self.client.download_file(S3Config.bucket, remote, local)` — the
`bucket` parameter is ignored in favour of the statically configured
bucket. -/
def S3Helper.download_file (bucket remote localDest : String) : Effect :=
  Effect.downloadObject S3Config.bucket remote localDest

/-- s3.py, S3Helper.upload_file: one upload request; here the `bucket`
parameter is used. -/
def S3Helper.upload_file (localSrc bucket remote : String) : Effect :=
  Effect.uploadObject localSrc bucket remote

/-- s3.py, S3Helper.move_file: copy, then delete the source (not atomic).
The two calls are sequenced: the delete runs only if the copy succeeded. -/
def S3Helper.move_file (bucket source destination : String) : List Effect :=
  [S3Helper.copy_file bucket source destination, S3Helper.delete_file bucket source]

/-- Python's single-character `str.split(sep)` on a list of characters:
`"".split(sep) = [""]`, separators at the ends produce empty fragments. -/
def splitOnChar (sep : Char) : List Char → List (List Char)
  | [] => [[]]
  | c :: cs =>
    let rest := splitOnChar sep cs
    if c = sep then [] :: rest
    else
      match rest with
      | [] => [[c]]
      | piece :: pieces => (c :: piece) :: pieces

/-- task.py, ImportTask._parse: the allow-list of file types. -/
def allowedFileTypes : List String := ["test1", "test2", "test3", "mmr", "mor"]

/-- task.py, ImportTask: the attributes computed by `_parse` — client, file
name, file type, version, and the deterministic local/remote paths for every
later stage.  None of these attributes exist on the task object unless
`_parse` ran to completion. -/
structure ImportContext where
  client : String
  file_name : String
  file_type : String
  version : String
  download_folder : String
  download_path : String
  processed_folder : String
  processed_path : String
  upload_path : String
  accepted_path : String
  rejected_path : String
  deriving DecidableEq, Repr

/-- task.py, ImportTask._parse, final section: the path format strings. -/
def mkImportContext (client file_name file_type version : String) : ImportContext :=
  { client := client
    file_name := file_name
    file_type := file_type
    version := version
    download_folder := AppConfig.root ++ "/data/download/" ++ client
    download_path := AppConfig.root ++ "/data/download/" ++ client ++ "/" ++ file_name
    processed_folder := AppConfig.root ++ "/data/processed/" ++ client
    processed_path := AppConfig.root ++ "/data/processed/" ++ client ++ "/" ++ file_name
    upload_path := S3Config.root ++ "/processed/" ++ client ++ "/" ++ file_name
    accepted_path := S3Config.root ++ "/accepted/" ++ client ++ "/" ++ file_name
    rejected_path := S3Config.root ++ "/rejected/" ++ client ++ "/" ++ file_name }

/-- task.py, ImportTask._parse.  Drops the first `len(S3Config.root) + 1`
characters of the key, splits on '/' (asserting exactly three elements,
taking the second as client and the third as file name), splits the file
name on '_' (asserting exactly two elements), and asserts the file type is
in the allow-list.  `none` models an AssertionError: the task attributes,
including every path, are then never set.  Note the code never checks that
the dropped prefix is `S3Config.root` nor that the first element is
`pending`. -/
def ImportTask.parse (file_path : String) : Option ImportContext :=
  let s := file_path.data.drop (S3Config.root.length + 1)
  match splitOnChar '/' s with
  | [_, client, file_name] =>
    match splitOnChar '_' file_name with
    | [file_type, version] =>
      if String.mk file_type ∈ allowedFileTypes then
        some (mkImportContext (String.mk client) (String.mk file_name)
          (String.mk file_type) (String.mk version))
      else none
    | _ => none
  | _ => none

/-- The executable Task variants of task.py: TestTask (wait_time argument),
KillSelfTask, ImportTask (file_path argument).  Arguments are stored as the
dynamic values taken from the message's args dictionary. -/
inductive TaskObj where
  | test (wait_time : ArgValue)
  | killSelf
  | importT (file_path : ArgValue)
  deriving DecidableEq, Repr

/-- The names bound at module scope in task.py: its imports (`logging`,
`os`, `shutil`, `time`, `AppConfig`, `S3Config`, `S3Helper`), the module
logger `log`, and the classes it defines.  `globals()[self.type]` raises
KeyError exactly when the type tag is outside this list. -/
def taskModuleGlobals : List String :=
  ["logging", "os", "shutil", "time", "AppConfig", "S3Config", "S3Helper",
   "log", "TaskMessage", "StatusMessage", "Task", "TestTask", "KillSelfTask",
   "ImportTask"]

/-- task.py, TaskMessage.to_task: `globals()[self.type](worker, self, s3)`.
The three concrete Task subclasses dispatch to their constructors, reading
their argument from the args dictionary (a missing key raises KeyError in
the constructor).  A type tag that names no binding of the task module
raises KeyError at the globals lookup; either way the error is raised at
construction time, before the worker's try block.  (Tags naming a
non-variant module global are outside the scope of the theorems below.) -/
def TaskMessage.to_task (m : TaskMessage) : Except String TaskObj :=
  if m.type = "TestTask" then
    match m.args.lookup "wait_time" with
    | some v => Except.ok (TaskObj.test v)
    | none => Except.error "KeyError: wait_time"
  else if m.type = "KillSelfTask" then Except.ok TaskObj.killSelf
  else if m.type = "ImportTask" then
    match m.args.lookup "file_path" with
    | some v => Except.ok (TaskObj.importT v)
    | none => Except.error "KeyError: file_path"
  else Except.error "KeyError: unknown type"

/-- `_parse` applied to the dynamic file_path attribute: a non-string value
raises a TypeError at the slicing step, which behaves like any other parse
failure (no attribute is set). -/
def ImportTask.parseVal : ArgValue → Option ImportContext
  | ArgValue.str p => ImportTask.parse p
  | ArgValue.nat _ => none

/-- task.py, ImportTask.do, stages 2-4 (_download, _preprocess, _upload)
as the straight-line sequence of external operations they issue; stages 5
and 6 (_import, _postprocess) are `pass` and issue nothing. -/
def ImportTask.importOps (file_path : String) (ctx : ImportContext) : List Effect :=
  [Effect.makedirs ctx.download_folder,
   S3Helper.download_file S3Config.bucket file_path ctx.download_path,
   Effect.makedirs ctx.processed_folder,
   Effect.copyLocal ctx.download_path ctx.processed_path,
   S3Helper.upload_file ctx.processed_path S3Config.bucket ctx.upload_path]

/-- task.py, ImportTask.do: `_parse` (pure; an assertion failure aborts with
no operation issued), then the staged external operations, each aborting the
rest on an exception. -/
def ImportTask.doRun (file_path : ArgValue) (env : Env) : List Effect × Bool :=
  match ImportTask.parseVal file_path with
  | none => ([], false)
  | some ctx =>
    match file_path with
    | ArgValue.str p => runSeq env (ImportTask.importOps p ctx)
    | ArgValue.nat _ => ([], false)

/-- How ImportTask.cleanup finished: ran to the end; raised AttributeError
reading a path attribute that `_parse` never set; or an unguarded external
call raised. -/
inductive CleanupOutcome where
  | completed
  | attrError
  | opError
  deriving DecidableEq, Repr

/-- The local-folder cleanup blocks of ImportTask.cleanup:
`try: os.remove(path); os.rmdir(folder) except: pass`.  If the remove
raises, the rmdir is not attempted; every error is swallowed. -/
def tryLocalCleanup (env : Env) (path folder : String) : List Effect :=
  if env.fails (Effect.removeFile path) then [Effect.removeFile path]
  else [Effect.removeFile path, Effect.removeDir folder]

/-- task.py, ImportTask.cleanup when `_parse` completed (so the path
attributes exist): move the original object to 'accepted' on success and to
'rejected' otherwise (copy then delete, unguarded), then best-effort local
cleanup, then an unguarded delete of the restaged 'processed' object. -/
def ImportTask.cleanupCtx (file_path : String) (ctx : ImportContext)
    (status : StatusValue) (env : Env) : List Effect × CleanupOutcome :=
  let dest := if status = StatusValue.success then ctx.accepted_path else ctx.rejected_path
  let move := runSeq env (S3Helper.move_file S3Config.bucket file_path dest)
  if move.2 = false then (move.1, CleanupOutcome.opError)
  else
    let dl := tryLocalCleanup env ctx.download_path ctx.download_folder
    let pr := tryLocalCleanup env ctx.processed_path ctx.processed_folder
    let delUp := S3Helper.delete_file S3Config.bucket ctx.upload_path
    (move.1 ++ dl ++ pr ++ [delUp],
     if env.fails delUp then CleanupOutcome.opError else CleanupOutcome.completed)

/-- task.py, ImportTask.cleanup.  When `_parse` never completed, the very
first statement reads `self.accepted_path` / `self.rejected_path`, neither
of which was ever set: AttributeError is raised before any operation is
issued. -/
def ImportTask.cleanup (file_path : ArgValue) (ctx? : Option ImportContext)
    (status : StatusValue) (env : Env) : List Effect × CleanupOutcome :=
  match ctx?, file_path with
  | some ctx, ArgValue.str p => ImportTask.cleanupCtx p ctx status env
  | some _, ArgValue.nat _ => ([], CleanupOutcome.attrError)
  | none, _ => ([], CleanupOutcome.attrError)

/-- One task execution: the effects issued by `do`, whether `do` completed
without raising, and the worker's stop flag afterwards.  TestTask.do only
sleeps and logs (it raises a TypeError if wait_time is not a number);
KillSelfTask.do sets the executing worker's own stop flag. -/
def TaskObj.doRun : TaskObj → Bool → Env → List Effect × Bool × Bool
  | TaskObj.test (ArgValue.nat _), stop, _ => ([], true, stop)
  | TaskObj.test (ArgValue.str _), stop, _ => ([], false, stop)
  | TaskObj.killSelf, _, _ => ([], true, true)
  | TaskObj.importT p, stop, env =>
    let r := ImportTask.doRun p env
    (r.1, r.2, stop)

/-- The `cleanup` method of each variant: TestTask.cleanup and
KillSelfTask.cleanup are `pass`; ImportTask.cleanup is modelled above
(its path attributes exist exactly when `_parse` completed). -/
def TaskObj.cleanupRun : TaskObj → StatusValue → Env → List Effect × CleanupOutcome
  | TaskObj.test _, _, _ => ([], CleanupOutcome.completed)
  | TaskObj.killSelf, _, _ => ([], CleanupOutcome.completed)
  | TaskObj.importT p, status, env =>
    ImportTask.cleanup p (ImportTask.parseVal p) status env

/-- The observable outcome of one iteration of Worker.run's claim loop on a
single claimed message: the status messages put on the status queue, the
external operations issued, how many times task.cleanup was invoked,
whether an exception escaped the loop body (killing the worker process),
and the worker's stop flag afterwards. -/
structure IterResult where
  published : List StatusMessage
  effects : List Effect
  cleanupRuns : Nat
  crashed : Bool
  stopAfter : Bool
  deriving DecidableEq, Repr

/-- worker.py, Worker.run, one iteration of the claim loop.
`task = task_message.to_task(self, s3)` runs before the try block: a
construction error propagates out of the loop with nothing published and
no cleanup.  Otherwise `task.do()` runs inside
`try/except/finally`: on success the status is set to 'success' and put on
the status queue, on any exception it is set to 'failure' and put on the
status queue, and `task.cleanup()` then runs unconditionally in the
`finally` block — but an exception raised by cleanup itself propagates out
of the loop and kills the worker. -/
def workerIter (stop : Bool) (m : TaskMessage) (env : Env) : IterResult :=
  match m.to_task with
  | Except.error _ =>
    { published := [], effects := [], cleanupRuns := 0, crashed := true, stopAfter := stop }
  | Except.ok t =>
    let d := TaskObj.doRun t stop env
    let status := if d.2.1 then StatusValue.success else StatusValue.failure
    let c := TaskObj.cleanupRun t status env
    { published := [{ value := status, task_message := m }]
      effects := d.1 ++ c.1
      cleanupRuns := 1
      crashed := decide (c.2 ≠ CleanupOutcome.completed)
      stopAfter := d.2.2 }

/-- One entry of the s3.list_files result: the boto3 object metadata used by
Main.check_s3 (Key, Size, LastModified).  Timestamps are modelled as
integers under their total order. -/
structure S3Object where
  Key : String
  Size : Nat
  LastModified : Int
  deriving DecidableEq, Repr

/-- The outcome of Main.check_s3: the value of the TaskMessage.next_id
counter, the coordinator's max_s3_time, and the messages put on the task
queue (in order). -/
structure CheckS3Result where
  nextId : Nat
  max_s3_time : Int
  messages : List TaskMessage
  deriving DecidableEq, Repr

/-- main.py, Main.check_s3, the `for result in results` loop.  `pre` is
`self.max_s3_time`, which is not reassigned until after the loop, so every
entry is compared against the pre-cycle mark; `cur` is the local
`new_s3_time` accumulator.  Entries with `Size == 0` or
`LastModified <= self.max_s3_time` are skipped; every other entry raises
the accumulator to its timestamp if larger and enqueues one
TaskMessage('ImportTask', \x7b'file_path': key\x7d) with a fresh id. -/
def check_s3Loop (pre : Int) : Nat → Int → List S3Object → CheckS3Result
  | nid, cur, [] => { nextId := nid, max_s3_time := cur, messages := [] }
  | nid, cur, r :: rest =>
    if r.Size = 0 then check_s3Loop pre nid cur rest
    else if r.LastModified ≤ pre then check_s3Loop pre nid cur rest
    else
      let cur' := if r.LastModified > cur then r.LastModified else cur
      let msg : TaskMessage :=
        { id := nid + 1, type := "ImportTask", args := [("file_path", ArgValue.str r.Key)] }
      let out := check_s3Loop pre (nid + 1) cur' rest
      { nextId := out.nextId, max_s3_time := out.max_s3_time, messages := msg :: out.messages }

/-- main.py, Main.check_s3: lists the pending prefix (the `results`
argument below), runs the loop with `new_s3_time` initialized to
`self.max_s3_time`, and finally assigns `self.max_s3_time = new_s3_time`. -/
def check_s3 (nid : Nat) (pre : Int) (results : List S3Object) : CheckS3Result :=
  check_s3Loop pre nid pre results

/-- The condition under which a listed object produces a Task Descriptor in
Main.check_s3: non-zero size and last-modified strictly above the pre-cycle
high-water mark. -/
def qualifies (pre : Int) (r : S3Object) : Bool :=
  !(decide (r.Size = 0)) && !(decide (r.LastModified ≤ pre))

/-- The coordinator state touched by check_s3: the TaskMessage.next_id
counter, the high-water mark, and the task queue contents. -/
structure MainState where
  nextId : Nat
  max_s3_time : Int
  task_queue : List TaskMessage
  deriving DecidableEq, Repr

/-- One run of check_s3 under the `try/except` of Main.run's loop.  The
`listing` argument is the outcome of `self.s3.list_files(...)`, the first
statement of check_s3: if it raises, the exception is caught at the loop
level and logged, and no state was mutated (the high-water mark is assigned
only at the end of check_s3, and every enqueue happens after the listing
returned).  Otherwise the loop body runs to completion. -/
def mainCycleCheckS3 (st : MainState) (listing : Except String (List S3Object)) : MainState :=
  match listing with
  | Except.error _ => st
  | Except.ok results =>
    let out := check_s3 st.nextId st.max_s3_time results
    { nextId := out.nextId
      max_s3_time := out.max_s3_time
      task_queue := st.task_queue ++ out.messages }

/-- Successive iterations of Main.run's `while not self.stop` loop, one
listing outcome per cycle: each cycle's exception is caught and the loop
proceeds to the next cycle. -/
def runCycles (st : MainState) (listings : List (Except String (List S3Object))) : MainState :=
  listings.foldl mainCycleCheckS3 st

/-- The shared state a KillSelfTask could conceivably touch: each worker's
stop flag, the coordinator's stop flag, and the task queue contents. -/
structure PoolState where
  workerStops : List Bool
  mainStop : Bool
  task_queue : List TaskMessage
  deriving DecidableEq, Repr

/-- task.py, KillSelfTask.do executed by worker `i`: `self.worker.stop =
True` — the one assignment it performs, on the executing worker's own
flag. -/
def KillSelfTask.doPool (st : PoolState) (i : Nat) : PoolState :=
  { st with workerStops := st.workerStops.set i true }

/-- Whether an effect is a `copy_object` request — the first half of an S3
move.  The disposition moves of ImportTask.cleanup are the only source of
copies in the whole pipeline. -/
def isCopyObject : Effect → Bool
  | Effect.copyObject _ _ _ => true
  | _ => false

/-- A well-formed pending key with an allow-listed file type. -/
def goodKey : String := "pag_estuary/pending/clientA/test1_20170101.csv"

/-- A structurally valid pending key whose file type is outside the
allow-list. -/
def badTypeKey : String := "pag_estuary/pending/clientA/badtype_20170101.csv"

/-- A second disallowed-file-type key, used for the C3 counterexample. -/
def badTypeKey2 : String := "pag_estuary/pending/clientB/weird_20170101.csv"

/-- A key that fails the very first structural assertion of `_parse`. -/
def malformedKey : String := "pag_estuary/oops"

/-- An ImportTask descriptor carrying the given key. -/
def importMessage (id : Nat) (key : String) : TaskMessage :=
  { id := id, type := "ImportTask", args := [("file_path", ArgValue.str key)] }

/-! ## Helper lemmas -/

/-- Every operation a straight-line run issues comes from the program's own
operation list. -/
lemma runSeq_mem (env : Env) : ∀ (l : List Effect) (e : Effect),
    e ∈ (runSeq env l).1 → e ∈ l := by
  intro l
  induction l with
  | nil => intro e he; simp [runSeq] at he
  | cons x rest ih =>
    intro e he
    by_cases hf : env.fails x
    · simp [runSeq, hf] at he
      simp [he]
    · simp [runSeq, hf] at he
      rcases he with he | he
      · simp [he]
      · exact List.mem_cons_of_mem _ (ih e he)

/-- The import pipeline stages issue no `copy_object` request. -/
lemma importOps_no_copy (env : Env) (p : String) (ctx : ImportContext) :
    ((runSeq env (ImportTask.importOps p ctx)).1.filter isCopyObject) = [] := by
  rw [List.filter_eq_nil_iff]
  intro e he
  have hmem := runSeq_mem env _ e he
  simp [ImportTask.importOps, S3Helper.download_file, S3Helper.upload_file] at hmem
  rcases hmem with rfl | rfl | rfl | rfl | rfl <;> simp [isCopyObject]

/-- The swallowed local-cleanup blocks issue no `copy_object` request. -/
lemma tryLocalCleanup_no_copy (env : Env) (a b : String) :
    (tryLocalCleanup env a b).filter isCopyObject = [] := by
  rw [tryLocalCleanup]
  split <;> simp [isCopyObject]

/-- When `_parse` completed, ImportTask.cleanup issues exactly one
`copy_object` request: the copy half of the disposition move, whose
destination is the accepted path on success and the rejected path
otherwise. -/
lemma cleanupCtx_filter_copy (p : String) (ctx : ImportContext)
    (status : StatusValue) (env : Env) :
    ((ImportTask.cleanupCtx p ctx status env).1.filter isCopyObject) =
      [Effect.copyObject S3Config.bucket p
        (if status = StatusValue.success then ctx.accepted_path else ctx.rejected_path)] := by
  rw [ImportTask.cleanupCtx]
  simp only [S3Helper.move_file, S3Helper.copy_file, S3Helper.delete_file, runSeq]
  by_cases h1 : env.fails (Effect.copyObject S3Config.bucket p
      (if status = StatusValue.success then ctx.accepted_path else ctx.rejected_path))
  · simp [h1, isCopyObject]
  · by_cases h2 : env.fails (Effect.deleteObject S3Config.bucket p)
    · simp [h1, h2, isCopyObject]
    · simp [h1, h2, isCopyObject, List.filter_append,
        tryLocalCleanup_no_copy, S3Helper.delete_file]

/-- Python's `if lm > cur then lm else cur` is `max cur lm`. -/
lemma ite_gt_eq_max (a b : Int) : (if b > a then b else a) = max a b := by
  rcases le_or_lt b a with h | h
  · rw [if_neg (not_lt.mpr h), max_eq_left h]
  · rw [if_pos h, max_eq_right h.le]

/-- The fold used to characterise the new high-water mark. -/
def foldMax (cur : Int) (l : List S3Object) : Int :=
  l.foldl (fun a r => max a r.LastModified) cur

lemma foldMax_nil (cur : Int) : foldMax cur [] = cur := rfl

lemma foldMax_cons (cur : Int) (r : S3Object) (l : List S3Object) :
    foldMax cur (r :: l) = foldMax (max cur r.LastModified) l := rfl

/-- The fold never goes below its starting point. -/
lemma le_foldMax (l : List S3Object) : ∀ cur : Int, cur ≤ foldMax cur l := by
  induction l with
  | nil => intro cur; exact le_refl cur
  | cons r rest ih =>
    intro cur
    rw [foldMax_cons]
    exact le_trans (le_max_left _ _) (ih _)

/-- The fold dominates the timestamp of every listed object. -/
lemma mem_le_foldMax (l : List S3Object) : ∀ (cur : Int) (r : S3Object), r ∈ l →
    r.LastModified ≤ foldMax cur l := by
  induction l with
  | nil => intro cur r hr; simp at hr
  | cons x rest ih =>
    intro cur r hr
    rw [foldMax_cons]
    rcases List.mem_cons.mp hr with rfl | hr
    · exact le_trans (le_max_right _ _) (le_foldMax _ _)
    · exact ih _ _ hr

/-- The fold's value is the starting point or some listed timestamp. -/
lemma foldMax_eq_init_or_mem (l : List S3Object) : ∀ cur : Int,
    foldMax cur l = cur ∨ ∃ r ∈ l, foldMax cur l = r.LastModified := by
  induction l with
  | nil => intro cur; exact Or.inl rfl
  | cons x rest ih =>
    intro cur
    rw [foldMax_cons]
    rcases ih (max cur x.LastModified) with h | ⟨r, hr, h⟩
    · rcases max_choice cur x.LastModified with hm | hm
      · exact Or.inl (by rw [h, hm])
      · exact Or.inr ⟨x, List.mem_cons_self _ _, by rw [h, hm]⟩
    · exact Or.inr ⟨r, List.mem_cons_of_mem _ hr, h⟩

/-- A qualifying object's timestamp is strictly above the pre-cycle mark. -/
lemma qualifies_lt (pre : Int) (r : S3Object) (h : qualifies pre r = true) :
    pre < r.LastModified := by
  simp [qualifies] at h
  exact h.2

/-- The high-water mark computed by the check_s3 loop is the max-fold of the
qualifying objects' timestamps over the accumulator, with every comparison
made against the pre-cycle mark. -/
lemma check_s3Loop_mark (pre : Int) : ∀ (rs : List S3Object) (nid : Nat) (cur : Int),
    (check_s3Loop pre nid cur rs).max_s3_time = foldMax cur (rs.filter (qualifies pre)) := by
  intro rs
  induction rs with
  | nil => intro nid cur; rfl
  | cons r rest ih =>
    intro nid cur
    by_cases h1 : r.Size = 0
    · simp [check_s3Loop, h1, qualifies, ih]
    · by_cases h2 : r.LastModified ≤ pre
      · simp [check_s3Loop, h1, h2, qualifies, ih]
      · simp only [check_s3Loop, if_neg h1, if_neg h2]
        rw [ih]
        have hq : qualifies pre r = true := by simp [qualifies, h1, h2]
        rw [List.filter_cons_of_pos hq, foldMax_cons, ite_gt_eq_max]

/-- The messages produced by the check_s3 loop are exactly one ImportTask
descriptor, carrying the object key as file_path, per qualifying object. -/
lemma check_s3Loop_messages (pre : Int) : ∀ (rs : List S3Object) (nid : Nat) (cur : Int),
    (check_s3Loop pre nid cur rs).messages.map (fun m => (m.type, m.args)) =
      (rs.filter (qualifies pre)).map
        (fun r => ("ImportTask", [("file_path", ArgValue.str r.Key)])) := by
  intro rs
  induction rs with
  | nil => intro nid cur; rfl
  | cons r rest ih =>
    intro nid cur
    by_cases h1 : r.Size = 0
    · simp [check_s3Loop, h1, qualifies, ih]
    · by_cases h2 : r.LastModified ≤ pre
      · simp [check_s3Loop, h1, h2, qualifies, ih]
      · have hq : qualifies pre r = true := by simp [qualifies, h1, h2]
        simp only [check_s3Loop, if_neg h1, if_neg h2, List.filter_cons_of_pos hq,
          List.map_cons]
        rw [ih]

/-! ## Claim theorems -/

/-- C9: every call to the gateway's download operation ignores the bucket
argument passed by the caller — the fetch is always issued against the
statically configured bucket, so two calls differing only in the bucket
argument perform the same request. -/
theorem c9_download_ignores_bucket (b1 b2 remote localDest : String) :
    S3Helper.download_file b1 remote localDest = S3Helper.download_file b2 remote localDest ∧
    S3Helper.download_file b1 remote localDest =
      Effect.downloadObject S3Config.bucket remote localDest :=
  ⟨rfl, rfl⟩

/-- C10: for the TestTask and KillSelfTask variants, cleanup is a no-op and
execution issues no external operation at all — no object-store move,
delete, or local file removal — so the accepted/rejected disposition can
only come from the ImportTask variant. -/
theorem c10_test_killself_cleanup_noop (w : ArgValue) (status : StatusValue)
    (env : Env) (stop : Bool) :
    TaskObj.cleanupRun (TaskObj.test w) status env = ([], CleanupOutcome.completed) ∧
    TaskObj.cleanupRun TaskObj.killSelf status env = ([], CleanupOutcome.completed) ∧
    (TaskObj.doRun (TaskObj.test w) stop env).1 = [] ∧
    (TaskObj.doRun TaskObj.killSelf stop env).1 = [] := by
  refine ⟨rfl, rfl, ?_, rfl⟩
  cases w <;> rfl

/-- C7: if the object-store listing raises during a poll cycle, the
exception is caught at the coordinator loop level; the high-water mark, the
id counter and the task queue are all left exactly as they were (so no Task
Descriptor is enqueued in that cycle), and the loop proceeds to the
remaining cycles as if the failed one had not happened. -/
theorem c7_listing_error_leaves_state (st : MainState) (e : String)
    (rest : List (Except String (List S3Object))) :
    mainCycleCheckS3 st (Except.error e) = st ∧
    runCycles st (Except.error e :: rest) = runCycles st rest :=
  ⟨rfl, rfl⟩

/-- C4 (code bug): the spec requires cleanup to complete without raising
even when execution aborted at an early stage, explicitly including a
failed parse.  On a key that fails the first structural assertion of
`_parse`, no path attribute was ever set, and cleanup raises AttributeError
before issuing a single operation — under every environment and terminal
status. -/
theorem c4_cleanup_raises_on_parse_failure (status : StatusValue) (env : Env) :
    ImportTask.parse malformedKey = none ∧
    ImportTask.cleanup (ArgValue.str malformedKey)
      (ImportTask.parseVal (ArgValue.str malformedKey)) status env
      = ([], CleanupOutcome.attrError) :=
  ⟨rfl, rfl⟩

/-- C2 (code bug): an ImportTask whose file type is outside the allow-list
does always publish a `failure` status and never `success` (first
conjunct, over every environment), but the promised move of the original
object to the rejected location is never issued: `_parse` aborts before
computing `rejected_path`, cleanup raises AttributeError reading it, zero
external operations are issued, and the exception escapes the worker
loop. -/
theorem c2_disallowed_type_no_rejected_move :
    (∀ (stop : Bool) (env : Env),
      (workerIter stop (importMessage 1 badTypeKey) env).published.map (fun s => s.value)
        = [StatusValue.failure]) ∧
    (workerIter false (importMessage 1 badTypeKey) envAllOk).effects = [] ∧
    (workerIter false (importMessage 1 badTypeKey) envAllOk).crashed = true := by
  refine ⟨fun stop env => rfl, rfl, rfl⟩

/-- C1 counterexample: the claim says an unknown type tag is surfaced as a
task `Failure` on the status channel and the Worker survives.  On the
concrete descriptor with type tag 'BogusTask' — which names nothing in the
task module — the dispatch exception is raised before the worker's try
block: nothing is published to the status channel and the exception escapes
the claim loop, killing the worker process. -/
theorem c1_counterexample :
    ("BogusTask" ∉ taskModuleGlobals) ∧
    (workerIter false { id := 1, type := "BogusTask", args := [] } envAllOk).published = [] ∧
    (workerIter false { id := 1, type := "BogusTask", args := [] } envAllOk).crashed = true := by
  refine ⟨by decide, rfl, rfl⟩

/-- C1 (amended): for every Task Descriptor whose type tag names no binding
of the task module, `globals()[type]` raises KeyError at task construction,
which happens before the worker's try/except block: no status message is
published, no cleanup runs, no external operation is issued, and the
exception propagates out of the claim loop, so the Worker crashes instead
of returning to claiming. -/
theorem c1_unknown_type_crashes_worker (stop : Bool) (env : Env) (m : TaskMessage)
    (h : m.type ∉ taskModuleGlobals) :
    workerIter stop m env =
      { published := [], effects := [], cleanupRuns := 0, crashed := true, stopAfter := stop } := by
  have h1 : m.type ≠ "TestTask" := by intro he; exact h (by rw [he]; decide)
  have h2 : m.type ≠ "KillSelfTask" := by intro he; exact h (by rw [he]; decide)
  have h3 : m.type ≠ "ImportTask" := by intro he; exact h (by rw [he]; decide)
  simp [workerIter, TaskMessage.to_task, h1, h2, h3]

/-- C1 witness: the amended theorem applied at a concrete unknown tag. -/
theorem c1_unknown_type_crashes_worker_witness :
    workerIter false { id := 7, type := "FooTask", args := [] } envAllOk =
      { published := [], effects := [], cleanupRuns := 0, crashed := true, stopAfter := false } :=
  c1_unknown_type_crashes_worker false envAllOk
    { id := 7, type := "FooTask", args := [] } (by decide)

/-- C5: after a completed poll cycle the high-water mark is at least the
pre-cycle mark (monotonically non-decreasing); it is unchanged when no
listed object qualified, it dominates the last-modified timestamp of every
object that produced a Descriptor, and when at least one object produced a
Descriptor it equals the last-modified timestamp of one of them — i.e. it
is exactly the maximum timestamp among the producing objects. -/
theorem c5_high_water_mark_is_max (nid : Nat) (pre : Int) (rs : List S3Object) :
    pre ≤ (check_s3 nid pre rs).max_s3_time ∧
    (rs.filter (qualifies pre) = [] → (check_s3 nid pre rs).max_s3_time = pre) ∧
    (∀ r ∈ rs.filter (qualifies pre),
      r.LastModified ≤ (check_s3 nid pre rs).max_s3_time) ∧
    (rs.filter (qualifies pre) ≠ [] →
      ∃ r ∈ rs.filter (qualifies pre),
        (check_s3 nid pre rs).max_s3_time = r.LastModified) := by
  rw [check_s3, check_s3Loop_mark]
  refine ⟨le_foldMax _ _, ?_, ?_, ?_⟩
  · intro h; rw [h]; rfl
  · intro r hr; exact mem_le_foldMax _ _ r hr
  · intro hne
    rcases foldMax_eq_init_or_mem (rs.filter (qualifies pre)) pre with h | h
    · exfalso
      rcases List.exists_mem_of_ne_nil _ hne with ⟨r0, hr0⟩
      have hlt : pre < r0.LastModified :=
        qualifies_lt pre r0 (List.mem_filter.mp hr0).2
      have hle : r0.LastModified ≤ foldMax pre (rs.filter (qualifies pre)) :=
        mem_le_foldMax _ _ r0 hr0
      rw [h] at hle
      exact absurd hle (not_le.mpr hlt)
    · exact h

/-- C5 witness: the concrete scenario of the spec — one fresh object raises
the mark to its timestamp. -/
theorem c5_high_water_mark_is_max_witness :
    ∃ r ∈ ([⟨"pag_estuary/pending/clientA/test1_20170101.csv", 5, 3⟩] :
        List S3Object).filter (qualifies 0),
      (check_s3 0 0 [⟨"pag_estuary/pending/clientA/test1_20170101.csv", 5, 3⟩]).max_s3_time
        = r.LastModified :=
  (c5_high_water_mark_is_max 0 0
    [⟨"pag_estuary/pending/clientA/test1_20170101.csv", 5, 3⟩]).2.2.2 (by decide)

/-- C6: in a completed poll cycle, the descriptors put on the task queue
are, in listing order, exactly one descriptor of type 'ImportTask' carrying
the object's key as file_path for each listed object with non-zero size and
last-modified strictly above the pre-cycle high-water mark, and none for
any other listed object; every comparison is made against the pre-cycle
mark, never a mid-cycle value. -/
theorem c6_one_descriptor_per_new_object (nid : Nat) (pre : Int) (rs : List S3Object) :
    (check_s3 nid pre rs).messages.map (fun m => (m.type, m.args)) =
      (rs.filter (qualifies pre)).map
        (fun r => ("ImportTask", [("file_path", ArgValue.str r.Key)])) := by
  rw [check_s3]
  exact check_s3Loop_messages pre rs nid pre

/-- C8: executing KillSelfTask on worker `i` sets exactly that worker's own
stop flag; every other worker's flag, the coordinator's stop flag and the
task queue are untouched.  The executing worker finishes the task normally:
it publishes a `success` status, issues no external operation, survives
cleanup, and leaves the iteration with its stop flag set, so exactly that
worker exits its claim loop. -/
theorem c8_killself_stops_only_self (st : PoolState) (i : Nat)
    (h : i < st.workerStops.length) (stop : Bool) (env : Env) (m : TaskMessage)
    (hm : m.to_task = Except.ok TaskObj.killSelf) :
    (KillSelfTask.doPool st i).workerStops[i]? = some true ∧
    (∀ j, j ≠ i → (KillSelfTask.doPool st i).workerStops[j]? = st.workerStops[j]?) ∧
    (KillSelfTask.doPool st i).mainStop = st.mainStop ∧
    (KillSelfTask.doPool st i).task_queue = st.task_queue ∧
    workerIter stop m env =
      { published := [{ value := StatusValue.success, task_message := m }]
        effects := [], cleanupRuns := 1, crashed := false, stopAfter := true } := by
  refine ⟨?_, ?_, rfl, rfl, ?_⟩
  · exact List.getElem?_set_self h
  · intro j hj
    exact List.getElem?_set_ne (fun he => hj he.symm)
  · simp [workerIter, hm, TaskObj.doRun, TaskObj.cleanupRun]

/-- C8 witness: a two-worker pool, KillSelfTask executed by worker 0. -/
theorem c8_killself_stops_only_self_witness :
    (KillSelfTask.doPool ⟨[false, false], false, []⟩ 0).workerStops[0]? = some true ∧
    (KillSelfTask.doPool ⟨[false, false], false, []⟩ 0).workerStops[1]? =
      (⟨[false, false], false, []⟩ : PoolState).workerStops[1]? ∧
    workerIter false { id := 3, type := "KillSelfTask", args := [] } envAllOk =
      { published := [{ value := StatusValue.success,
                        task_message := { id := 3, type := "KillSelfTask", args := [] } }]
        effects := [], cleanupRuns := 1, crashed := false, stopAfter := true } := by
  have h := c8_killself_stops_only_self ⟨[false, false], false, []⟩ 0 (by decide)
    false envAllOk { id := 3, type := "KillSelfTask", args := [] } rfl
  exact ⟨h.1, h.2.1 1 (by decide), h.2.2.2.2⟩

/-- C3 counterexample: the claim says that for every ImportTask instance
exactly one of the accepted/rejected moves of the original object is
issued.  On a concrete ImportTask whose parse fails (disallowed file type),
cleanup is indeed invoked exactly once, but it raises AttributeError before
the move: no external operation is issued at all — zero moves, not one. -/
theorem c3_counterexample :
    (workerIter false (importMessage 2 badTypeKey2) envAllOk).cleanupRuns = 1 ∧
    (workerIter false (importMessage 2 badTypeKey2) envAllOk).effects = [] ∧
    ((workerIter false (importMessage 2 badTypeKey2) envAllOk).effects.filter
      isCopyObject).length = 0 := by
  refine ⟨rfl, rfl, rfl⟩

/-- C3 (amended): for every Task instance a Worker constructs, cleanup is
invoked exactly once, after the success/failure status is published,
regardless of whether do() raised.  For every ImportTask whose parse stage
completed, exactly one disposition copy of the original pending object is
issued — to the accepted path when do() succeeded and to the rejected path
otherwise.  For an ImportTask whose parse stage failed, no disposition move
is issued at all (cleanup aborts on the unset path attributes). -/
theorem c3_cleanup_once_and_disposition (stop : Bool) (env : Env) (m : TaskMessage)
    (t : TaskObj) (h : m.to_task = Except.ok t) :
    (workerIter stop m env).cleanupRuns = 1 ∧
    (∀ p ctx, t = TaskObj.importT (ArgValue.str p) → ImportTask.parse p = some ctx →
      (workerIter stop m env).effects.filter isCopyObject =
        [Effect.copyObject S3Config.bucket p
          (if (ImportTask.doRun (ArgValue.str p) env).2 then ctx.accepted_path
           else ctx.rejected_path)]) ∧
    (∀ v, t = TaskObj.importT v → ImportTask.parseVal v = none →
      (workerIter stop m env).effects = []) := by
  refine ⟨by simp [workerIter, h], ?_, ?_⟩
  · rintro p ctx rfl hp
    have hpv : ImportTask.parseVal (ArgValue.str p) = some ctx := hp
    simp only [workerIter, h, TaskObj.doRun, TaskObj.cleanupRun, ImportTask.doRun,
      ImportTask.cleanup, ImportTask.parseVal, hp]
    rw [List.filter_append, importOps_no_copy, List.nil_append, cleanupCtx_filter_copy]
    by_cases hb : (runSeq env (ImportTask.importOps p ctx)).2
    · simp [ImportTask.doRun, ImportTask.parseVal, hp, hb]
    · simp [ImportTask.doRun, ImportTask.parseVal, hp, hb]
  · rintro v rfl hv
    cases v with
    | str p =>
      simp only [workerIter, h, TaskObj.doRun, TaskObj.cleanupRun, ImportTask.doRun,
        ImportTask.cleanup, ImportTask.parseVal, hv]
      simp [ImportTask.parseVal] at hv
      simp [hv]
    | nat n =>
      simp [workerIter, h, TaskObj.doRun, TaskObj.cleanupRun, ImportTask.doRun,
        ImportTask.cleanup, ImportTask.parseVal]

/-- C3 witness: the amended theorem applied to a well-formed ImportTask
descriptor in the all-succeeding environment. -/
theorem c3_cleanup_once_and_disposition_witness :
    (workerIter false (importMessage 4 goodKey) envAllOk).cleanupRuns = 1 ∧
    (workerIter false (importMessage 4 goodKey) envAllOk).effects.filter isCopyObject =
      [Effect.copyObject S3Config.bucket goodKey
        (if (ImportTask.doRun (ArgValue.str goodKey) envAllOk).2 then
          (mkImportContext "clientA" "test1_20170101.csv" "test1" "20170101.csv").accepted_path
         else
          (mkImportContext "clientA" "test1_20170101.csv" "test1" "20170101.csv").rejected_path)] := by
  have h := c3_cleanup_once_and_disposition false envAllOk (importMessage 4 goodKey)
    (TaskObj.importT (ArgValue.str goodKey)) rfl
  exact ⟨h.1, h.2.1 goodKey (mkImportContext "clientA" "test1_20170101.csv" "test1" "20170101.csv") rfl rfl⟩
